import Mathlib

/-!
Shallow embedding of the `gluesql-conntrack-storage` crate:
a GlueSQL storage backend exposing the kernel connection-tracking table
as a virtual SQL table.  The two logic-bearing components are embedded
from the source:

* the predicate compiler `get_filter` / `parse_filter` (src/lib.rs),
  which turns a parsed SQL `WHERE` expression into a `conntrack::Filter`
  made of two directional builders, and
* the row projector `Column::add_field` (src/utils.rs), which turns a
  flow record into an 11-value row.

External collaborator types (`conntrack::Filter`, `DirFilterBuilder`,
`Flow`, the sqlparser AST and the GlueSQL value/row/key types) are
embedded by the exact interface the source uses.  Machine integers are
modelled as `Nat`/`Int` with explicit range checks where the source
checks ranges (`to_u8`, `to_u16`).  Numeric SQL literals are modelled by
their integer value; literals that are not integer-valued numbers or
single-quoted strings fall under the catch-all constructor, on which
every conversion in the source fails.
-/

/-- An IPv4 address: four octets, as in `std::net::Ipv4Addr`. -/
structure Ipv4Addr where
  a : Nat
  b : Nat
  c : Nat
  d : Nat
deriving DecidableEq

/-- Equality of `Except` values is decidable when both components
are; Lean core does not provide this instance. -/
instance {ε α : Type} [DecidableEq ε] [DecidableEq α] :
    DecidableEq (Except ε α) := fun x y =>
  match x, y with
  | .ok a, .ok b =>
    if h : a = b then .isTrue (by simp [h]) else .isFalse (by simp [h])
  | .error a, .error b =>
    if h : a = b then .isTrue (by simp [h]) else .isFalse (by simp [h])
  | .ok _, .error _ => .isFalse (by simp)
  | .error _, .ok _ => .isFalse (by simp)

/-- ASCII digit test used by the dotted-quad parser. -/
def isAsciiDigit (c : Char) : Bool :=
  48 ≤ c.toNat && c.toNat ≤ 57

/-- One dotted-quad octet, as `u8::from_str` accepts it: one to three
ASCII digits, no leading zero (except `"0"` itself), value at most 255. -/
def parseOctet (s : List Char) : Option Nat :=
  if s.length = 0 || 3 < s.length then none
  else if !s.all isAsciiDigit then none
  else if 1 < s.length && s.headI = '0' then none
  else
    let n := s.foldl (fun acc c => acc * 10 + (c.toNat - '0'.toNat)) 0
    if n ≤ 255 then some n else none

/-- Split a character list at every dot (the grouping
`String::split` performs for the dotted-quad parser): `""` gives one
empty group, and every dot opens a new group. -/
def splitOnDot : List Char → List (List Char)
  | [] => [[]]
  | c :: rest =>
    if c = '.' then [] :: splitOnDot rest
    else
      match splitOnDot rest with
      | [] => [[c]]
      | g :: gs => (c :: g) :: gs

/-- `"a.b.c.d".parse::<Ipv4Addr>()`: exactly four octets separated by
dots, each accepted by `parseOctet`. -/
def Ipv4Addr.ofString (s : String) : Option Ipv4Addr :=
  match splitOnDot s.toList with
  | [pa, pb, pc, pd] =>
    match parseOctet pa, parseOctet pb, parseOctet pc, parseOctet pd with
    | some na, some nb, some nc, some nd => some ⟨na, nb, nc, nd⟩
    | _, _, _, _ => none
  | _ => none

/-- `std::net::IpAddr`: a v4 or v6 address.  Only the v4 form is ever
produced or consumed by the embedded code paths. -/
inductive IpAddr where
  | v4 (addr : Ipv4Addr)
  | v6 (segments : List Nat)
deriving DecidableEq

/-- `conntrack::model::IpProto`: the protocol-number enumeration of the
external conntrack crate, with its `u8` round-trip.  Only the variants
the development touches are named; all others are carried numerically. -/
inductive IpProto where
  | tcp
  | udp
  | icmp
  | otherProto (n : Nat)
deriving DecidableEq

/-- `u8::from(IpProto)`. -/
def IpProto.toU8 : IpProto → Nat
  | .tcp => 6
  | .udp => 17
  | .icmp => 1
  | .otherProto n => n

/-- `IpProto::from(u8)` (used implicitly by the builder setter). -/
def IpProto.ofNat (n : Nat) : IpProto :=
  if n = 6 then .tcp
  else if n = 17 then .udp
  else if n = 1 then .icmp
  else .otherProto n

/-- `gluesql::core::data::Value`, restricted to the constructors the
projector emits: `Null`, `Inet`, `U8`, `U16`, `U32`. -/
inductive Value where
  | null
  | inet (addr : IpAddr)
  | u8 (n : Nat)
  | u16 (n : Nat)
  | u32 (n : Nat)
deriving DecidableEq

namespace Ast

/-- `sqlparser::ast::Value`, the literal at the right of an equality.
`number` carries the integer value of an integer-valued numeric
literal; every other literal form (booleans, nulls, non-integer
numbers, ...) is `otherLiteral`, on which all conversions fail, exactly
as they do in the source. -/
inductive Value where
  | number (n : Int)
  | singleQuotedString (s : String)
  | otherLiteral
deriving DecidableEq

/-- `sqlparser::ast::BinaryOperator`, restricted to the operators the
compiler inspects (`And`, `Eq`) plus the comparison operators the spec
names; anything else is `otherOp`. -/
inductive BinaryOperator where
  | and
  | or
  | eq
  | notEq
  | lt
  | gt
  | ltEq
  | gtEq
  | otherOp
deriving DecidableEq

/-- `sqlparser::ast::Expr`, restricted to the shapes the compiler
inspects: binary operations, bare identifiers, literal values, `NOT`,
and a catch-all for every other expression form. -/
inductive Expr where
  | binaryOp (left : Expr) (op : BinaryOperator) (right : Expr)
  | identifier (name : String)
  | value (v : Value)
  | notExpr (e : Expr)
  | otherExpr
deriving DecidableEq

end Ast

/-- `conntrack::model::ProtocolInfo`: protocol number and ports, each
optional. -/
structure ProtocolInfo where
  number : Option IpProto
  src_port : Option Nat
  dst_port : Option Nat
deriving DecidableEq

/-- One directional tuple of a flow (`origin` or `reply`): optional
source and destination address and optional protocol info. -/
structure FlowDir where
  src : Option IpAddr
  dst : Option IpAddr
  proto : Option ProtocolInfo
deriving DecidableEq

/-- `conntrack::model::Flow`, restricted to the fields the projector
reads: optional id and the two optional directional tuples. -/
structure FlowRecord where
  id : Option Nat
  origin : Option FlowDir
  reply : Option FlowDir
deriving DecidableEq

/-- `gluesql::core::ast::DataType`, restricted to the four types the
column catalog uses. -/
inductive DataType where
  | uint32
  | inet
  | uint8
  | uint16
deriving DecidableEq

/-- `gluesql::core::ast::ColumnDef`, as `Column::def` fills it. -/
structure ColumnDef where
  name : String
  data_type : DataType
  nullable : Bool
  default : Option Ast.Expr
  unique : Option Unit
deriving DecidableEq

/-- The column catalog enumeration from src/utils.rs. -/
inductive Column where
  | Id
  | OrigSrc
  | OrigDst
  | OrigProtoNum
  | OrigProtoSrcPort
  | OrigProtoDstPort
  | ReplySrc
  | ReplyDst
  | ReplyProtoNum
  | ReplyProtoSrcPort
  | ReplyProtoDstPort
deriving DecidableEq

/-- `Column::all_variants()`: the derive macro enumerates the variants
in declaration order. -/
def Column.allVariants : List Column :=
  [.Id, .OrigSrc, .OrigDst, .OrigProtoNum, .OrigProtoSrcPort,
   .OrigProtoDstPort, .ReplySrc, .ReplyDst, .ReplyProtoNum,
   .ReplyProtoSrcPort, .ReplyProtoDstPort]

/-- `Column::name` from src/utils.rs. -/
def Column.name : Column → String
  | .Id => "id"
  | .OrigSrc => "orig_ipv4_src"
  | .OrigDst => "orig_ipv4_dst"
  | .OrigProtoNum => "orig_l4_proto"
  | .OrigProtoSrcPort => "orig_l4_src_port"
  | .OrigProtoDstPort => "orig_l4_dst_port"
  | .ReplySrc => "reply_ipv4_src"
  | .ReplyDst => "reply_ipv4_dst"
  | .ReplyProtoNum => "reply_l4_proto"
  | .ReplyProtoSrcPort => "reply_l4_src_port"
  | .ReplyProtoDstPort => "reply_l4_dst_port"

/-- `Column::def` from src/utils.rs. -/
def Column.def : Column → ColumnDef
  | c =>
    let data_type : DataType :=
      match c with
      | .Id => .uint32
      | .OrigSrc | .OrigDst | .ReplySrc | .ReplyDst => .inet
      | .OrigProtoNum | .ReplyProtoNum => .uint8
      | .OrigProtoSrcPort | .OrigProtoDstPort
      | .ReplyProtoSrcPort | .ReplyProtoDstPort => .uint16
    { name := c.name, data_type := data_type, nullable := true,
      default := none, unique := none }

/-- The per-column projected value: the body of `Column::add_field`
(src/utils.rs), which pushes `value.map(convert).unwrap_or(Value::Null)`
for the extraction path of the column. -/
def Column.fieldValue : Column → FlowRecord → Value
  | .Id, f => (f.id.map Value.u32).getD .null
  | .OrigSrc, f => ((f.origin.bind (·.src)).map Value.inet).getD .null
  | .ReplySrc, f => ((f.reply.bind (·.src)).map Value.inet).getD .null
  | .OrigDst, f => ((f.origin.bind (·.dst)).map Value.inet).getD .null
  | .ReplyDst, f => ((f.reply.bind (·.dst)).map Value.inet).getD .null
  | .OrigProtoNum, f =>
    (((f.origin.bind (·.proto)).bind (·.number)).map
      (fun p => Value.u8 p.toU8)).getD .null
  | .ReplyProtoNum, f =>
    (((f.reply.bind (·.proto)).bind (·.number)).map
      (fun p => Value.u8 p.toU8)).getD .null
  | .OrigProtoSrcPort, f =>
    (((f.origin.bind (·.proto)).bind (·.src_port)).map Value.u16).getD .null
  | .ReplyProtoSrcPort, f =>
    (((f.reply.bind (·.proto)).bind (·.src_port)).map Value.u16).getD .null
  | .OrigProtoDstPort, f =>
    (((f.origin.bind (·.proto)).bind (·.dst_port)).map Value.u16).getD .null
  | .ReplyProtoDstPort, f =>
    (((f.reply.bind (·.proto)).bind (·.dst_port)).map Value.u16).getD .null

/-- `Column::add_field`: push the column's projected value onto the
accumulating field vector. -/
def Column.add_field (c : Column) (flow : FlowRecord) (fields : List Value) :
    List Value :=
  fields ++ [c.fieldValue flow]

/-- The row-building loop of `scan_data_inner`: one `add_field` per
catalog column, in catalog order, starting from an empty vector. -/
def projectRow (flow : FlowRecord) : List Value :=
  Column.allVariants.foldl (fun fields c => c.add_field flow fields) []

/-- `conntrack::DirFilterBuilder`: the per-direction accumulator of
optional equality constraints.  Every field is optional, defaulting to
unconstrained. -/
structure DirFilterBuilder where
  ipv4_src : Option Ipv4Addr
  ipv4_dst : Option Ipv4Addr
  l4_proto : Option IpProto
  l4_src_port : Option Nat
  l4_dst_port : Option Nat
deriving DecidableEq

/-- `DirFilterBuilder::default()`: no constraint on any field. -/
def DirFilterBuilder.default : DirFilterBuilder :=
  ⟨none, none, none, none, none⟩

/-- Builder setter `ipv4_src`. -/
def DirFilterBuilder.set_ipv4_src (b : DirFilterBuilder) (a : Ipv4Addr) :
    DirFilterBuilder :=
  { b with ipv4_src := some a }

/-- Builder setter `ipv4_dst`. -/
def DirFilterBuilder.set_ipv4_dst (b : DirFilterBuilder) (a : Ipv4Addr) :
    DirFilterBuilder :=
  { b with ipv4_dst := some a }

/-- Builder setter `l4_proto` (takes anything convertible into
`IpProto`; the compiler passes a `u8`). -/
def DirFilterBuilder.set_l4_proto (b : DirFilterBuilder) (p : IpProto) :
    DirFilterBuilder :=
  { b with l4_proto := some p }

/-- Builder setter `l4_src_port`. -/
def DirFilterBuilder.set_l4_src_port (b : DirFilterBuilder) (p : Nat) :
    DirFilterBuilder :=
  { b with l4_src_port := some p }

/-- Builder setter `l4_dst_port`. -/
def DirFilterBuilder.set_l4_dst_port (b : DirFilterBuilder) (p : Nat) :
    DirFilterBuilder :=
  { b with l4_dst_port := some p }

/-- The built per-direction filter (`conntrack`'s directional filter
value): the same five optional constraints, now immutable. -/
structure DirFilter where
  ipv4_src : Option Ipv4Addr
  ipv4_dst : Option Ipv4Addr
  l4_proto : Option IpProto
  l4_src_port : Option Nat
  l4_dst_port : Option Nat
deriving DecidableEq

/-- `DirFilterBuilder::build()`.  Every field of the target is
optional with an unconstrained default, so finalization always
succeeds; the `DirFilterBuilderError` channel of the source is
therefore never inhabited on these inputs. -/
def DirFilterBuilder.build (b : DirFilterBuilder) : DirFilter :=
  ⟨b.ipv4_src, b.ipv4_dst, b.l4_proto, b.l4_src_port, b.l4_dst_port⟩

/-- An unconstrained directional filter. -/
def DirFilter.default : DirFilter :=
  ⟨none, none, none, none, none⟩

/-- `conntrack::Filter`: the pair of directional filters (named `CtFilter` here; the source name collides with the ambient mathematical library). -/
structure CtFilter where
  orig : DirFilter
  reply : DirFilter
deriving DecidableEq

/-- `Filter::default()`: both directions unconstrained — the all-match
filter. -/
def CtFilter.default : CtFilter :=
  ⟨DirFilter.default, DirFilter.default⟩

/-- `Filter::with_orig`. -/
def CtFilter.with_orig (f : CtFilter) (d : DirFilter) : CtFilter :=
  { f with orig := d }

/-- `Filter.with_reply`. -/
def CtFilter.with_reply (f : CtFilter) (d : DirFilter) : CtFilter :=
  { f with reply := d }

/-- `sqlparser::parser::ParserError`, carried opaquely by its
message. -/
structure ParserError where
  msg : String
deriving DecidableEq

/-- `ParseSqlToFilterError` from src/error.rs. -/
inductive ParseSqlToFilterError where
  | Parser (e : ParserError)
  | DirFilterBuilder (msg : String)
deriving DecidableEq

/-- `to_ipv4_addr` from `get_filter` (src/lib.rs): a single-quoted
string literal parsed as an IPv4 address; anything else fails. -/
def to_ipv4_addr (v : Ast.Value) : Option Ipv4Addr :=
  match v with
  | .singleQuotedString s => Ipv4Addr.ofString s
  | _ => none

/-- `to_u8` from `get_filter` (src/lib.rs): a numeric literal whose
value fits in eight bits; anything else fails. -/
def to_u8 (v : Ast.Value) : Option Nat :=
  match v with
  | .number n => if 0 ≤ n ∧ n < 256 then some n.toNat else none
  | _ => none

/-- `to_u16` from `get_filter` (src/lib.rs): a numeric literal whose
value fits in sixteen bits; anything else fails. -/
def to_u16 (v : Ast.Value) : Option Nat :=
  match v with
  | .number n => if 0 ≤ n ∧ n < 65536 then some n.toNat else none
  | _ => none

/-- The column lookup map of `get_filter`: `Column::all_variants()`
keyed by `Column::name`.  Names are pairwise distinct, so lookup is the
first (only) match. -/
def Column.ofName (s : String) : Option Column :=
  Column.allVariants.find? (fun c => c.name = s)

/-- The compiler's traversal state: the two mutable directional
builders (`orig_filter`, `reply_filter`). -/
abbrev BuilderState := DirFilterBuilder × DirFilterBuilder

/-- The `do_match!` dispatch of `process` (src/lib.rs): route a
recognized column to its directional builder setter after converting
the literal; on an unrecognized identifier, a column with no dispatch
arm (`Column::Id` has none), or a failed conversion, leave the state
unchanged (the source only logs a warning). -/
def doMatch (st : BuilderState) (ident : String) (v : Ast.Value) :
    BuilderState :=
  match Column.ofName ident with
  | some .OrigSrc =>
    match to_ipv4_addr v with
    | some a => (st.1.set_ipv4_src a, st.2)
    | none => st
  | some .OrigDst =>
    match to_ipv4_addr v with
    | some a => (st.1.set_ipv4_dst a, st.2)
    | none => st
  | some .OrigProtoNum =>
    match to_u8 v with
    | some n => (st.1.set_l4_proto (IpProto.ofNat n), st.2)
    | none => st
  | some .OrigProtoSrcPort =>
    match to_u16 v with
    | some n => (st.1.set_l4_src_port n, st.2)
    | none => st
  | some .OrigProtoDstPort =>
    match to_u16 v with
    | some n => (st.1.set_l4_dst_port n, st.2)
    | none => st
  | some .ReplySrc =>
    match to_ipv4_addr v with
    | some a => (st.1, st.2.set_ipv4_src a)
    | none => st
  | some .ReplyDst =>
    match to_ipv4_addr v with
    | some a => (st.1, st.2.set_ipv4_dst a)
    | none => st
  | some .ReplyProtoNum =>
    match to_u8 v with
    | some n => (st.1, st.2.set_l4_proto (IpProto.ofNat n))
    | none => st
  | some .ReplyProtoSrcPort =>
    match to_u16 v with
    | some n => (st.1, st.2.set_l4_src_port n)
    | none => st
  | some .ReplyProtoDstPort =>
    match to_u16 v with
    | some n => (st.1, st.2.set_l4_dst_port n)
    | none => st
  | _ => st

/-- `process` from `get_filter` (src/lib.rs): recurse through `AND`
nodes left before right; on an equality of a bare identifier and a
literal, dispatch through `do_match!`; every other shape is a no-op
(the source only logs a warning). -/
def process (e : Ast.Expr) (st : BuilderState) : BuilderState :=
  match e with
  | .binaryOp l op r =>
    match op with
    | .and => process r (process l st)
    | .eq =>
      match l, r with
      | .identifier ident, .value v => doMatch st ident v
      | _, _ => st
    | _ => st
  | _ => st

/-- The initial traversal state: two default builders. -/
def initState : BuilderState :=
  (DirFilterBuilder.default, DirFilterBuilder.default)

/-- Assemble the final `Filter` from the traversal state, as the tail
of `get_filter` does: `Filter::default().with_orig(orig.build())
.with_reply(reply.build())`. -/
def filterOfState (st : BuilderState) : CtFilter :=
  (CtFilter.default.with_orig st.1.build).with_reply st.2.build

/-- `get_filter` from src/lib.rs.  Builder finalization cannot fail
(every filter field is optional), so the result is always `ok`. -/
def get_filter (selection : Ast.Expr) : Except ParseSqlToFilterError CtFilter :=
  .ok (filterOfState (process selection initState))

/-- Rust `char::is_whitespace`: the Unicode `White_Space` property. -/
def isRustWhitespace (c : Char) : Bool :=
  c.toNat = 0x9 || c.toNat = 0xa || c.toNat = 0xb || c.toNat = 0xc ||
  c.toNat = 0xd || c.toNat = 0x20 || c.toNat = 0x85 || c.toNat = 0xa0 ||
  c.toNat = 0x1680 || (0x2000 ≤ c.toNat && c.toNat ≤ 0x200a) ||
  c.toNat = 0x2028 || c.toNat = 0x2029 || c.toNat = 0x202f ||
  c.toNat = 0x205f || c.toNat = 0x3000

/-- Rust `str::trim`: strip leading and trailing whitespace. -/
def rustTrim (s : String) : List Char :=
  ((s.toList.dropWhile isRustWhitespace).reverse.dropWhile
    isRustWhitespace).reverse

/-- `parse_filter` from src/lib.rs.  The external sqlparser is a
collaborator outside this crate, so it is passed as a function from the
trimmed SQL text to an expression or a parser error; the source maps
the error into `ParseSqlToFilterError::Parser` via `From`. -/
def parse_filter (parseSql : String → Except ParserError Ast.Expr)
    (sql : String) : Except ParseSqlToFilterError CtFilter :=
  let trimmed := rustTrim sql
  if trimmed.isEmpty then .ok CtFilter.default
  else
    match parseSql (String.mk trimmed) with
    | .error e => .error (.Parser e)
    | .ok expr => get_filter expr

/-- `gluesql::core::data::Key`, restricted to the constructors this
storage can emit: only `Key::None`. -/
inductive Key where
  | none
  | otherKey
deriving DecidableEq

/-- `gluesql::core::store::DataRow`, restricted to the `Vec` form the
storage emits. -/
inductive DataRow where
  | vec (values : List Value)
deriving DecidableEq

/-- `gluesql::core::error::Error`, restricted to the constructor the
storage emits. -/
inductive GError where
  | storageMsg (msg : String)
deriving DecidableEq

/-- The error of `conntrack::Conntrack::dump`, carried opaquely. -/
structure ConntrackError where
  msg : String
deriving DecidableEq

/-- The outcome of a Rust call that can also violate an `assert_eq!`:
either a normal return, an error return, or a panic from the failed
assertion. -/
inductive RustOutcome (α : Type) where
  | ok (a : α)
  | err (e : GError)
  | assertViolation
deriving DecidableEq

/-- True exactly on the error-return outcome. -/
def RustOutcome.isErr {α : Type} : RustOutcome α → Bool
  | .err _ => true
  | _ => false

/-- `Conntrack::scan_data_inner` (src/lib.rs).  The state behind the
mutex is summarized by the dump outcome, passed as an argument.  The
function first runs `assert_eq!(table_name, "Connections")` — a wrong
name panics, modelled as `assertViolation`.  A dump failure is wrapped
via `Error::Conntrack` (whose display is `"conntrack failed"`) into
`GError::StorageMsg`.  A successful dump yields one `Ok((Key::None,
DataRow::Vec(fields)))` item per flow, in dump order. -/
def scan_data_inner (table_name : String)
    (dump : Except ConntrackError (List FlowRecord)) :
    RustOutcome (List (Except GError (Key × DataRow))) :=
  if table_name = "Connections" then
    match dump with
    | .error _ => .err (.storageMsg "conntrack failed")
    | .ok flows =>
      .ok (flows.map (fun flow =>
        .ok (Key.none, DataRow.vec (projectRow flow))))
  else .assertViolation

/-- `gluesql::core::data::Schema`, as `fetch_schema` fills it. -/
structure Schema where
  table_name : String
  column_defs : Option (List ColumnDef)
  indexes : List Unit
  engine : Option String
deriving DecidableEq

/-- `Store::fetch_schema` (src/lib.rs): `assert_eq!` on the table name
(a wrong name panics), then the fixed catalog schema. -/
def fetch_schema (table_name : String) : RustOutcome (Option Schema) :=
  if table_name = "Connections" then
    .ok (some
      { table_name := "Connections",
        column_defs := some (Column.allVariants.map Column.def),
        indexes := [], engine := none })
  else .assertViolation

/-- A constraint value installed into one filter slot: an address, a
protocol number, or a port. -/
inductive FVal where
  | ip (a : Ipv4Addr)
  | proto (p : IpProto)
  | port (n : Nat)
deriving DecidableEq

/-- Read the filter slot a catalog column routes to, out of the
traversal state.  `Column::Id` has no dispatch arm in `do_match!` and
hence no slot. -/
def slotB (st : BuilderState) : Column → Option FVal
  | .Id => none
  | .OrigSrc => st.1.ipv4_src.map .ip
  | .OrigDst => st.1.ipv4_dst.map .ip
  | .OrigProtoNum => st.1.l4_proto.map .proto
  | .OrigProtoSrcPort => st.1.l4_src_port.map .port
  | .OrigProtoDstPort => st.1.l4_dst_port.map .port
  | .ReplySrc => st.2.ipv4_src.map .ip
  | .ReplyDst => st.2.ipv4_dst.map .ip
  | .ReplyProtoNum => st.2.l4_proto.map .proto
  | .ReplyProtoSrcPort => st.2.l4_src_port.map .port
  | .ReplyProtoDstPort => st.2.l4_dst_port.map .port

/-- Read the filter slot a catalog column routes to, out of the built
filter. -/
def CtFilter.slot (f : CtFilter) : Column → Option FVal
  | .Id => none
  | .OrigSrc => f.orig.ipv4_src.map .ip
  | .OrigDst => f.orig.ipv4_dst.map .ip
  | .OrigProtoNum => f.orig.l4_proto.map .proto
  | .OrigProtoSrcPort => f.orig.l4_src_port.map .port
  | .OrigProtoDstPort => f.orig.l4_dst_port.map .port
  | .ReplySrc => f.reply.ipv4_src.map .ip
  | .ReplyDst => f.reply.ipv4_dst.map .ip
  | .ReplyProtoNum => f.reply.l4_proto.map .proto
  | .ReplyProtoSrcPort => f.reply.l4_src_port.map .port
  | .ReplyProtoDstPort => f.reply.l4_dst_port.map .port

/-- The literal conversion `do_match!` applies for each column: the
address columns go through `to_ipv4_addr`, the protocol-number columns
through `to_u8` (then into `IpProto`), the port columns through
`to_u16`.  `Column::Id` has no dispatch arm, hence no conversion. -/
def columnConvert : Column → Ast.Value → Option FVal
  | .Id, _ => none
  | .OrigSrc, v => (to_ipv4_addr v).map .ip
  | .OrigDst, v => (to_ipv4_addr v).map .ip
  | .OrigProtoNum, v => (to_u8 v).map (fun n => .proto (IpProto.ofNat n))
  | .OrigProtoSrcPort, v => (to_u16 v).map .port
  | .OrigProtoDstPort, v => (to_u16 v).map .port
  | .ReplySrc, v => (to_ipv4_addr v).map .ip
  | .ReplyDst, v => (to_ipv4_addr v).map .ip
  | .ReplyProtoNum, v => (to_u8 v).map (fun n => .proto (IpProto.ofNat n))
  | .ReplyProtoSrcPort, v => (to_u16 v).map .port
  | .ReplyProtoDstPort, v => (to_u16 v).map .port

/-- Install a converted value into the slot a column routes to:
the normal form of one successful `do_match!` arm.  Combinations that
cannot arise from `columnConvert` leave the state unchanged. -/
def writeSlot (st : BuilderState) : Column → FVal → BuilderState
  | .OrigSrc, .ip a => (st.1.set_ipv4_src a, st.2)
  | .OrigDst, .ip a => (st.1.set_ipv4_dst a, st.2)
  | .OrigProtoNum, .proto p => (st.1.set_l4_proto p, st.2)
  | .OrigProtoSrcPort, .port n => (st.1.set_l4_src_port n, st.2)
  | .OrigProtoDstPort, .port n => (st.1.set_l4_dst_port n, st.2)
  | .ReplySrc, .ip a => (st.1, st.2.set_ipv4_src a)
  | .ReplyDst, .ip a => (st.1, st.2.set_ipv4_dst a)
  | .ReplyProtoNum, .proto p => (st.1, st.2.set_l4_proto p)
  | .ReplyProtoSrcPort, .port n => (st.1, st.2.set_l4_src_port n)
  | .ReplyProtoDstPort, .port n => (st.1, st.2.set_l4_dst_port n)
  | _, _ => st

/-- The constraint an equality leaf contributes, if any: the leaf must
be `identifier = literal`, the identifier must name a catalog column,
and the literal must convert for that column. -/
def leafConvert (e : Ast.Expr) : Option FVal :=
  match e with
  | .binaryOp (.identifier ident) .eq (.value v) =>
    match Column.ofName ident with
    | some c => columnConvert c v
    | none => none
  | _ => none

/-- A leaf that contributes a constraint. -/
def goodLeaf (e : Ast.Expr) : Bool :=
  (leafConvert e).isSome

/-- The column an equality leaf routes to (`Column.Id`, which has no
slot, doubles as the default for shapes that route nowhere). -/
def leafColD (e : Ast.Expr) : Column :=
  match e with
  | .binaryOp (.identifier ident) .eq (.value _) =>
    (Column.ofName ident).getD .Id
  | _ => .Id

/-- A node the compiler drops without contributing any constraint:
any shape other than `AND`, other than an `identifier = literal`
equality, an equality over an identifier with no dispatch arm, or one
whose literal fails conversion.  This is the exact complement, on
non-`AND` nodes, of the leaves `do_match!` installs. -/
def isDroppedLeaf (e : Ast.Expr) : Bool :=
  match e with
  | .binaryOp l op r =>
    match op with
    | .and => false
    | .eq =>
      match l, r with
      | .identifier ident, .value v =>
        match Column.ofName ident with
        | none => true
        | some c => (columnConvert c v).isNone
      | _, _ => true
    | _ => true
  | _ => true

/-- Flatten the `AND` spine of an expression into its conjuncts; every
non-`AND` node is a conjunct of its own. -/
def conjuncts : Ast.Expr → List Ast.Expr
  | .binaryOp l .and r => conjuncts l ++ conjuncts r
  | e => [e]

/-- The four address-typed filterable columns. -/
def isAddrColumn : Column → Bool
  | .OrigSrc | .OrigDst | .ReplySrc | .ReplyDst => true
  | _ => false

/-- The two protocol-number columns. -/
def isProtoColumn : Column → Bool
  | .OrigProtoNum | .ReplyProtoNum => true
  | _ => false

/-- The four port columns. -/
def isPortColumn : Column → Bool
  | .OrigProtoSrcPort | .OrigProtoDstPort
  | .ReplyProtoSrcPort | .ReplyProtoDstPort => true
  | _ => false

/-- The parsed form of `id = 5`. -/
def exampleIdEq5 : Ast.Expr :=
  .binaryOp (.identifier "id") .eq (.value (.number 5))

/-- The parsed form of `id = 5 OR orig_ipv4_src = '127.0.0.1'`. -/
def exampleIdOrSrc : Ast.Expr :=
  .binaryOp exampleIdEq5 .or
    (.binaryOp (.identifier "orig_ipv4_src") .eq
      (.value (.singleQuotedString "127.0.0.1")))

/-- The parsed form of the five-conjunct example predicate
`orig_ipv4_src = '127.0.0.1' AND orig_ipv4_dst = '127.0.0.2' AND
orig_l4_proto = 6 AND orig_l4_src_port = 1 AND orig_l4_dst_port = 2`
(SQL `AND` associates to the left). -/
def exampleConjunction : Ast.Expr :=
  .binaryOp
    (.binaryOp
      (.binaryOp
        (.binaryOp
          (.binaryOp (.identifier "orig_ipv4_src") .eq
            (.value (.singleQuotedString "127.0.0.1")))
          .and
          (.binaryOp (.identifier "orig_ipv4_dst") .eq
            (.value (.singleQuotedString "127.0.0.2"))))
        .and
        (.binaryOp (.identifier "orig_l4_proto") .eq (.value (.number 6))))
      .and
      (.binaryOp (.identifier "orig_l4_src_port") .eq (.value (.number 1))))
    .and
    (.binaryOp (.identifier "orig_l4_dst_port") .eq (.value (.number 2)))

/-- A two-conjunct predicate and its transposition, used to witness
order independence concretely. -/
def examplePair1 : Ast.Expr :=
  .binaryOp
    (.binaryOp (.identifier "orig_l4_proto") .eq (.value (.number 6)))
    .and
    (.binaryOp (.identifier "reply_l4_src_port") .eq (.value (.number 80)))

/-- `examplePair1` with its two conjuncts transposed. -/
def examplePair2 : Ast.Expr :=
  .binaryOp
    (.binaryOp (.identifier "reply_l4_src_port") .eq (.value (.number 80)))
    .and
    (.binaryOp (.identifier "orig_l4_proto") .eq (.value (.number 6)))

/-- The filter both `examplePair1` and `examplePair2` compile to. -/
def examplePairFilter : CtFilter :=
  ⟨{ DirFilter.default with l4_proto := some .tcp },
   { DirFilter.default with l4_src_port := some 80 }⟩

/-- A flow record whose origin protocol number is TCP and whose reply
tuple is absent. -/
def exampleFlowTcp : FlowRecord :=
  ⟨none, some ⟨none, none, some ⟨some .tcp, none, none⟩⟩, none⟩

/-- Every catalog column is found under its own name in the compiler's
lookup map. -/
theorem Column.ofName_name (c : Column) : Column.ofName c.name = some c := by
  cases c <;> decide

/-- `do_match!` in normal form: look the identifier up, convert the
literal for the found column, and on success install it into that
column's slot; otherwise leave the state untouched. -/
theorem doMatch_eq (st : BuilderState) (ident : String) (v : Ast.Value) :
    doMatch st ident v =
      match Column.ofName ident with
      | none => st
      | some c =>
        match columnConvert c v with
        | none => st
        | some x => writeSlot st c x := by
  unfold doMatch
  cases h : Column.ofName ident with
  | none => rfl
  | some c =>
    cases c <;> simp only [columnConvert] <;>
      (try cases hv : to_ipv4_addr v) <;>
      (try cases hu : to_u8 v) <;>
      (try cases hw : to_u16 v) <;>
      simp [writeSlot, *]

/-- Traversal is the left fold of per-conjunct processing over the
flattened `AND` spine. -/
theorem process_conjuncts (e : Ast.Expr) (st : BuilderState) :
    process e st = (conjuncts e).foldl (fun s l => process l s) st := by
  induction e generalizing st with
  | binaryOp l op r ihl ihr =>
    cases op <;>
      simp only [process, conjuncts, List.foldl_append, List.foldl_cons,
        List.foldl_nil]
    exact (ihr _).trans (by rw [ihl])
  | identifier s => rfl
  | value v => rfl
  | notExpr e ih => rfl
  | otherExpr => rfl

/-- A dropped node leaves both builders untouched. -/
theorem process_dropped (e : Ast.Expr) (h : isDroppedLeaf e = true)
    (st : BuilderState) : process e st = st := by
  match e with
  | .binaryOp l op r =>
    cases op <;> simp only [isDroppedLeaf] at h <;> simp only [process]
    case and => cases h
    case eq =>
      match l, r with
      | .identifier ident, .value v =>
        show doMatch st ident v = st
        have h2 : (match Column.ofName ident with
            | none => true
            | some c => (columnConvert c v).isNone) = true := h
        rw [doMatch_eq]
        cases hc : Column.ofName ident with
        | none => rfl
        | some c =>
          rw [hc] at h2
          have h2b : (columnConvert c v).isNone = true := h2
          show (match columnConvert c v with
            | none => st
            | some x => writeSlot st c x) = st
          cases hx : columnConvert c v with
          | none => rfl
          | some x => rw [hx] at h2b; simp [Option.isNone] at h2b
      | .identifier ident, .identifier r2 => rfl
      | .identifier ident, .binaryOp a b c => rfl
      | .identifier ident, .notExpr e2 => rfl
      | .identifier ident, .otherExpr => rfl
      | .binaryOp a b c, r => rfl
      | .value v2, r => rfl
      | .notExpr e2, r => rfl
      | .otherExpr, r => rfl
  | .identifier s => rfl
  | .value v => rfl
  | .notExpr e2 => rfl
  | .otherExpr => rfl

/-- A contributing leaf writes its converted literal into its column's
slot. -/
theorem process_good (e : Ast.Expr) (x : FVal)
    (h : leafConvert e = some x) (st : BuilderState) :
    process e st = writeSlot st (leafColD e) x := by
  match e with
  | .binaryOp (.identifier ident) .eq (.value v) =>
    simp only [leafConvert] at h
    cases hc : Column.ofName ident with
    | none => rw [hc] at h; cases h
    | some c =>
      rw [hc] at h
      have h3 : columnConvert c v = some x := h
      show doMatch st ident v = writeSlot st ((Column.ofName ident).getD .Id) x
      rw [doMatch_eq, hc]
      show (match columnConvert c v with
        | none => st
        | some x => writeSlot st c x) = writeSlot st c x
      rw [h3]

/-- The initial state has every slot unconstrained. -/
theorem slotB_initState (c : Column) : slotB initState c = none := by
  cases c <;> rfl

/-- Building the final filter preserves every slot. -/
theorem slot_filterOfState (st : BuilderState) (c : Column) :
    (filterOfState st).slot c = slotB st c := by
  cases c <;> rfl

/-- Writing a converted value makes its own slot hold that value. -/
theorem slotB_writeSlot_self (c : Column) (v : Ast.Value) (x : FVal)
    (h : columnConvert c v = some x) (st : BuilderState) :
    slotB (writeSlot st c x) c = some x := by
  cases c <;>
    simp only [columnConvert, Option.map_eq_some'] at h <;>
    obtain ⟨y, hy, rfl⟩ := h <;> rfl

/-- Writing one slot leaves every other slot unchanged. -/
theorem slotB_writeSlot_other (st : BuilderState) (c c2 : Column)
    (x : FVal) (h : c2 ≠ c) : slotB (writeSlot st c x) c2 = slotB st c2 := by
  cases c <;> cases c2 <;> (try exact absurd rfl h) <;> cases x <;> rfl

/-- Writes to distinct slots commute. -/
theorem writeSlot_comm (st : BuilderState) (c1 c2 : Column)
    (x1 x2 : FVal) (h : c1 ≠ c2) :
    writeSlot (writeSlot st c1 x1) c2 x2 =
      writeSlot (writeSlot st c2 x2) c1 x1 := by
  cases c1 <;> cases c2 <;> (try exact absurd rfl h) <;>
    cases x1 <;> cases x2 <;> rfl

/-- Unpack a contributing leaf into its identifier, literal, column and
converted value. -/
theorem goodLeaf_spec (e : Ast.Expr) (h : goodLeaf e = true) :
    ∃ ident v x, e = .binaryOp (.identifier ident) .eq (.value v) ∧
      Column.ofName ident = some (leafColD e) ∧
      columnConvert (leafColD e) v = some x ∧ leafConvert e = some x := by
  match e with
  | .binaryOp (.identifier ident) .eq (.value v) =>
    simp only [goodLeaf, Option.isSome_iff_exists] at h
    obtain ⟨x, hx⟩ := h
    have hx2 : (match Column.ofName ident with
      | some c => columnConvert c v
      | none => none) = some x := hx
    cases hc : Column.ofName ident with
    | none => rw [hc] at hx2; cases hx2
    | some c =>
      rw [hc] at hx2
      refine ⟨ident, v, x, rfl, ?_, ?_, hx⟩
      · show Column.ofName ident = some ((Column.ofName ident).getD .Id)
        rw [hc]; rfl
      · show columnConvert ((Column.ofName ident).getD .Id) v = some x
        rw [hc]; exact hx2

/-- Folding contributing leaves that all route elsewhere preserves a
slot. -/
theorem foldl_slot_preserved (L : List Ast.Expr) (st : BuilderState)
    (c : Column) (hg : ∀ l ∈ L, goodLeaf l = true)
    (hc : ∀ l ∈ L, leafColD l ≠ c) :
    slotB (L.foldl (fun s l => process l s) st) c = slotB st c := by
  induction L generalizing st with
  | nil => rfl
  | cons hd tl ih =>
    simp only [List.foldl_cons]
    obtain ⟨ident, v, x, he, hcn, hcc, hlc⟩ :=
      goodLeaf_spec hd (hg hd (by simp))
    rw [ih _ (fun l hl => hg l (by simp [hl])) (fun l hl => hc l (by simp [hl]))]
    rw [process_good hd x hlc st]
    exact slotB_writeSlot_other st _ c x (hc hd (by simp)).symm

/-- After folding contributing leaves over pairwise-distinct columns,
each leaf's slot holds exactly its converted literal. -/
theorem foldl_slot_mem (L : List Ast.Expr) (st : BuilderState)
    (hg : ∀ l ∈ L, goodLeaf l = true)
    (hn : (L.map leafColD).Nodup)
    (l0 : Ast.Expr) (hm : l0 ∈ L) (x : FVal) (hx : leafConvert l0 = some x) :
    slotB (L.foldl (fun s l => process l s) st) (leafColD l0) = some x := by
  induction L generalizing st with
  | nil => cases hm
  | cons hd tl ih =>
    simp only [List.foldl_cons]
    rcases List.mem_cons.mp hm with heq | hmem
    · subst heq
      have hnot : ∀ l ∈ tl, leafColD l ≠ leafColD l0 := by
        intro l hl hcontra
        exact (List.nodup_cons.mp hn).1
          (hcontra ▸ List.mem_map_of_mem leafColD hl)
      rw [foldl_slot_preserved tl _ _ (fun l hl => hg l (by simp [hl])) hnot]
      obtain ⟨ident, v, x2, he, hcn, hcc, hlc⟩ :=
        goodLeaf_spec l0 (hg l0 (by simp))
      rw [hx] at hlc
      obtain rfl : x = x2 := Option.some_inj.mp hlc
      rw [process_good l0 x hx st]
      exact slotB_writeSlot_self (leafColD l0) v x hcc st
    · exact ih (process hd st) (fun l hl => hg l (by simp [hl]))
        (List.nodup_cons.mp hn).2 hmem

/-- Folding contributing leaves over pairwise-distinct columns is
invariant under permutation of the leaves. -/
theorem foldl_process_perm (L1 L2 : List Ast.Expr) (st : BuilderState)
    (hg : ∀ l ∈ L1, goodLeaf l = true)
    (hn : (L1.map leafColD).Nodup) (hp : L1.Perm L2) :
    L1.foldl (fun s l => process l s) st =
      L2.foldl (fun s l => process l s) st := by
  refine hp.foldl_eq' ?_ st
  intro a ha b hb z
  by_cases hab : a = b
  · subst hab; rfl
  · obtain ⟨ia, va, xa, hea, hca, hcca, hlca⟩ := goodLeaf_spec a (hg a ha)
    obtain ⟨ib, vb, xb, heb, hcb, hccb, hlcb⟩ := goodLeaf_spec b (hg b hb)
    have hcol : leafColD a ≠ leafColD b := by
      intro hcontra
      exact hab (List.inj_on_of_nodup_map hn ha hb hcontra)
    rw [process_good a xa hlca, process_good b xb hlcb,
      process_good a xa hlca, process_good b xb hlcb]
    exact writeSlot_comm z _ _ xa xb hcol

/-- Compiling a single equality over a catalog column's own name puts
exactly the converted literal in that column's slot; a failed
conversion leaves the state initial. -/
theorem slot_single_eq (c : Column) (v : Ast.Value) :
    slotB (process (.binaryOp (.identifier c.name) .eq (.value v)) initState) c
      = columnConvert c v ∧
    (columnConvert c v = none →
      process (.binaryOp (.identifier c.name) .eq (.value v)) initState
        = initState) := by
  have hproc : process (.binaryOp (.identifier c.name) .eq (.value v)) initState =
      (match columnConvert c v with
        | none => initState
        | some x => writeSlot initState c x) := by
    show doMatch initState c.name v = _
    rw [doMatch_eq, Column.ofName_name]
  cases hx : columnConvert c v with
  | none =>
    rw [hproc, hx]
    exact ⟨slotB_initState c, fun _ => rfl⟩
  | some x =>
    rw [hproc, hx]
    exact ⟨slotB_writeSlot_self c v x hx initState,
      fun hcon => Option.noConfusion hcon⟩

/-- C1: every predicate shape outside the supported
column-equals-literal-under-AND fragment — `OR` and the other non-`AND`
non-`=` operators, `NOT`, non-identifier left operands, identifiers
with no dispatch arm, literals failing conversion — never makes
compilation fail: `get_filter` succeeds on every expression, a dropped
node contributes nothing (the builders are untouched), conjoining a
dropped node on either side leaves the compiled filter exactly what it
is without it, and the example `id = 5 OR orig_ipv4_src = '127.0.0.1'`
compiles to the all-match filter. -/
theorem C1_unsupported_predicates_dropped_never_error :
    (∀ e : Ast.Expr, ∃ f, get_filter e = Except.ok f) ∧
    (∀ bad : Ast.Expr, isDroppedLeaf bad = true →
      (∀ st : BuilderState, process bad st = st) ∧
      ∀ ctx : Ast.Expr,
        get_filter (.binaryOp ctx .and bad) = get_filter ctx ∧
        get_filter (.binaryOp bad .and ctx) = get_filter ctx) ∧
    get_filter exampleIdOrSrc = Except.ok CtFilter.default := by
  refine ⟨fun e => ⟨_, rfl⟩,
    fun bad hbad => ⟨process_dropped bad hbad, fun ctx => ?_⟩, by decide⟩
  have h1 : process (.binaryOp ctx .and bad) initState
      = process ctx initState := by
    show process bad (process ctx initState) = process ctx initState
    exact process_dropped bad hbad _
  have h2 : process (.binaryOp bad .and ctx) initState
      = process ctx initState := by
    show process ctx (process bad initState) = process ctx initState
    rw [process_dropped bad hbad]
  constructor
  · show Except.ok (filterOfState (process (.binaryOp ctx .and bad)
      initState)) = _
    rw [h1]; rfl
  · show Except.ok (filterOfState (process (.binaryOp bad .and ctx)
      initState)) = _
    rw [h2]; rfl

/-- Witness for C1 at the dropped comparison `id < 3`. -/
theorem C1_unsupported_predicates_dropped_never_error_witness :
    isDroppedLeaf (.binaryOp (.identifier "id") .lt (.value (.number 3)))
        = true ∧
    process (.binaryOp (.identifier "id") .lt (.value (.number 3))) initState
      = initState :=
  ⟨by decide,
    (C1_unsupported_predicates_dropped_never_error.2.1
      (.binaryOp (.identifier "id") .lt (.value (.number 3)))
      (by decide)).1 initState⟩

/-- Claim C2 counterexample: `id` is a catalog entry and `5` fits its
`uint32` type, yet `id = 5` compiles to the all-match filter — the
dispatch table of `do_match!` has no arm for `Column::Id`, exactly as
the crate's own test asserts — so the compiled filter carries no
identifier constraint, contradicting the claim's conclusion. -/
theorem C2_id_eq_5_all_match_counterexample :
    Column.ofName "id" = some Column.Id ∧
    get_filter exampleIdEq5 = Except.ok CtFilter.default := by decide

/-- C2 (amended): for every equality leaf whose identifier names a
column with a `do_match!` dispatch arm (the ten directional columns —
`id` has none) and whose literal converts for that column, compilation
succeeds and the resulting filter holds exactly that value in that
column's slot, with every other slot unconstrained. -/
theorem C2_directional_equality_installs_constraint
    (ident : String) (v : Ast.Value) (c : Column) (x : FVal)
    (hc : Column.ofName ident = some c) (hx : columnConvert c v = some x) :
    ∃ f, get_filter (.binaryOp (.identifier ident) .eq (.value v))
        = Except.ok f ∧
      f.slot c = some x ∧ ∀ c2, c2 ≠ c → f.slot c2 = none := by
  have hlc : leafConvert (.binaryOp (.identifier ident) .eq (.value v))
      = some x := by
    show (match Column.ofName ident with
      | some c => columnConvert c v
      | none => none) = some x
    rw [hc]; exact hx
  have hcol : leafColD (.binaryOp (.identifier ident) .eq (.value v)) = c := by
    show (Column.ofName ident).getD .Id = c
    rw [hc]; rfl
  have hproc : process (.binaryOp (.identifier ident) .eq (.value v)) initState
      = writeSlot initState c x := by
    rw [process_good _ x hlc initState, hcol]
  refine ⟨_, rfl, ?_, ?_⟩
  · rw [slot_filterOfState, hproc]
    exact slotB_writeSlot_self c v x hx initState
  · intro c2 h2
    rw [slot_filterOfState, hproc,
      slotB_writeSlot_other initState c c2 x h2, slotB_initState]

/-- Witness for the amended C2 at `orig_l4_src_port = 7`. -/
theorem C2_directional_equality_installs_constraint_witness :
    Column.ofName "orig_l4_src_port" = some Column.OrigProtoSrcPort ∧
    columnConvert Column.OrigProtoSrcPort (.number 7) = some (.port 7) ∧
    ∃ f, get_filter (.binaryOp (.identifier "orig_l4_src_port") .eq
        (.value (.number 7))) = Except.ok f ∧
      f.slot Column.OrigProtoSrcPort = some (.port 7) ∧
      ∀ c2, c2 ≠ Column.OrigProtoSrcPort → f.slot c2 = none :=
  ⟨by decide, by decide,
    C2_directional_equality_installs_constraint "orig_l4_src_port"
      (.number 7) Column.OrigProtoSrcPort (.port 7) (by decide) (by decide)⟩

/-- C3: the five-conjunct example predicate compiles exactly to the
filter whose origin direction constrains source address 127.0.0.1,
destination address 127.0.0.2, protocol TCP (the `u8` 6 converted into
the protocol enumeration), source port 1 and destination port 2, and
whose reply direction is unconstrained. -/
theorem C3_example_conjunction_compiles_exactly :
    get_filter exampleConjunction = Except.ok
      ⟨⟨some ⟨127, 0, 0, 1⟩, some ⟨127, 0, 0, 2⟩, some .tcp, some 1, some 2⟩,
        DirFilter.default⟩ := by decide

/-- C4: for expressions built purely from `AND`-conjoined contributing
equalities over pairwise-distinct columns, the compiled filter is
invariant under any permutation of the conjuncts, each conjunct's slot
holds exactly its supplied (converted) literal, and every column no
conjunct routes to stays unconstrained.  (`id` equalities are outside
this class: no literal converts for `Column::Id`, which has no
dispatch arm.) -/
theorem C4_conjunction_order_independent_exact_constraints
    (e1 e2 : Ast.Expr) (f : CtFilter)
    (hg : ∀ l ∈ conjuncts e1, goodLeaf l = true)
    (hn : ((conjuncts e1).map leafColD).Nodup)
    (hp : (conjuncts e1).Perm (conjuncts e2))
    (hf : get_filter e1 = Except.ok f) :
    get_filter e2 = Except.ok f ∧
    (∀ l ∈ conjuncts e1, ∀ x, leafConvert l = some x →
      f.slot (leafColD l) = some x) ∧
    (∀ c : Column, (∀ l ∈ conjuncts e1, leafColD l ≠ c) →
      f.slot c = none) := by
  simp only [get_filter] at hf
  injection hf with hf
  subst hf
  refine ⟨?_, ?_, ?_⟩
  · show Except.ok (filterOfState (process e2 initState)) = _
    rw [process_conjuncts e2, ← foldl_process_perm _ _ initState hg hn hp,
      ← process_conjuncts e1]
  · intro l hl x hx
    rw [slot_filterOfState, process_conjuncts e1]
    exact foldl_slot_mem _ initState hg hn l hl x hx
  · intro c hcol
    rw [slot_filterOfState, process_conjuncts e1,
      foldl_slot_preserved _ initState c hg hcol, slotB_initState]

/-- Witness for C4 at a two-conjunct predicate and its
transposition. -/
theorem C4_conjunction_order_independent_exact_constraints_witness :
    (∀ l ∈ conjuncts examplePair1, goodLeaf l = true) ∧
    ((conjuncts examplePair1).map leafColD).Nodup ∧
    (conjuncts examplePair1).Perm (conjuncts examplePair2) ∧
    get_filter examplePair1 = Except.ok examplePairFilter ∧
    get_filter examplePair2 = Except.ok examplePairFilter :=
  ⟨by decide, by decide, by decide, by decide,
    (C4_conjunction_order_independent_exact_constraints examplePair1
      examplePair2 examplePairFilter (by decide) (by decide) (by decide)
      (by decide)).1⟩

/-- C5: projection is total and null-safe — every flow record projects
to exactly 11 values in catalog order; the all-absent record projects
to 11 nulls; a fully populated record projects every column to its
corresponding non-null typed value. -/
theorem C5_projection_total_null_safe :
    (∀ flow : FlowRecord, (projectRow flow).length = 11) ∧
    projectRow ⟨none, none, none⟩ = List.replicate 11 Value.null ∧
    (∀ (i : Nat) (s d : IpAddr) (pn : IpProto) (sp dp : Nat)
        (s2 d2 : IpAddr) (pn2 : IpProto) (sp2 dp2 : Nat),
      projectRow ⟨some i,
          some ⟨some s, some d, some ⟨some pn, some sp, some dp⟩⟩,
          some ⟨some s2, some d2, some ⟨some pn2, some sp2, some dp2⟩⟩⟩ =
        [.u32 i, .inet s, .inet d, .u8 pn.toU8, .u16 sp, .u16 dp,
         .inet s2, .inet d2, .u8 pn2.toU8, .u16 sp2, .u16 dp2]) :=
  ⟨fun _ => rfl, by decide,
    fun _ _ _ _ _ _ _ _ _ _ _ => rfl⟩

/-- C6: a flow whose protocol number is set in one direction projects
to the matching plain 8-bit integer in that direction's
protocol-number column, while the opposite direction's protocol-number
column is null whenever its own protocol number is not independently
set. -/
theorem C6_protocol_number_directional (flow : FlowRecord) (p : IpProto) :
    ((flow.origin.bind (·.proto)).bind (·.number) = some p →
      Column.fieldValue .OrigProtoNum flow = .u8 p.toU8 ∧
      ((flow.reply.bind (·.proto)).bind (·.number) = none →
        Column.fieldValue .ReplyProtoNum flow = .null)) ∧
    ((flow.reply.bind (·.proto)).bind (·.number) = some p →
      Column.fieldValue .ReplyProtoNum flow = .u8 p.toU8 ∧
      ((flow.origin.bind (·.proto)).bind (·.number) = none →
        Column.fieldValue .OrigProtoNum flow = .null)) := by
  refine ⟨fun h => ⟨?_, fun h2 => ?_⟩, fun h => ⟨?_, fun h2 => ?_⟩⟩ <;>
    simp only [Column.fieldValue] <;>
    (first | rw [h] | rw [h2]) <;> rfl

/-- Witness for C6 at a TCP-origin, absent-reply flow: the origin
column projects to 6, the reply column to null. -/
theorem C6_protocol_number_directional_witness :
    (exampleFlowTcp.origin.bind (·.proto)).bind (·.number)
        = some IpProto.tcp ∧
    Column.fieldValue .OrigProtoNum exampleFlowTcp = .u8 6 ∧
    Column.fieldValue .ReplyProtoNum exampleFlowTcp = .null :=
  ⟨by decide,
    ((C6_protocol_number_directional exampleFlowTcp .tcp).1 (by decide)).1,
    ((C6_protocol_number_directional exampleFlowTcp .tcp).1 (by decide)).2
      (by decide)⟩

/-- C7: for an equality over a recognized column, an address column's
slot is constrained exactly when the literal is a single-quoted string
parsing as an IPv4 address; a protocol-number column's slot exactly
when the literal is a number fitting in 8 bits; a port column's slot
exactly when the literal is a number fitting in 16 bits; and whenever
nothing converts, the predicate is dropped: the compiled filter is the
all-match filter, never a compile error. -/
theorem C7_literal_conversion_per_column_class
    (c : Column) (v : Ast.Value) (f : CtFilter)
    (hf : get_filter (.binaryOp (.identifier c.name) .eq (.value v))
      = Except.ok f) :
    (isAddrColumn c = true →
      ((f.slot c).isSome = true ↔
        ∃ s a, v = .singleQuotedString s ∧ Ipv4Addr.ofString s = some a)) ∧
    (isProtoColumn c = true →
      ((f.slot c).isSome = true ↔
        ∃ n : Int, v = .number n ∧ 0 ≤ n ∧ n < 256)) ∧
    (isPortColumn c = true →
      ((f.slot c).isSome = true ↔
        ∃ n : Int, v = .number n ∧ 0 ≤ n ∧ n < 65536)) ∧
    ((f.slot c).isNone = true → f = CtFilter.default) := by
  simp only [get_filter] at hf
  injection hf with hf
  subst hf
  obtain ⟨hslot, hdef⟩ := slot_single_eq c v
  rw [slot_filterOfState, hslot] at *
  refine ⟨?_, ?_, ?_, ?_⟩
  · intro hcase
    cases c <;> simp only [isAddrColumn] at hcase <;> try cases hcase
    all_goals
      cases v <;>
        simp [columnConvert, to_ipv4_addr, Option.isSome_iff_exists]
  · intro hcase
    cases c <;> simp only [isProtoColumn] at hcase <;> try cases hcase
    all_goals
      cases v <;> simp [columnConvert, to_u8, Option.isSome_iff_exists]
  · intro hcase
    cases c <;> simp only [isPortColumn] at hcase <;> try cases hcase
    all_goals
      cases v <;> simp [columnConvert, to_u16, Option.isSome_iff_exists]
  · intro hnone
    rw [hdef (Option.isNone_iff_eq_none.mp hnone)]
    rfl

/-- Witness for C7: `orig_ipv4_src = '127.0.0.1'` constrains the
origin source-address slot. -/
theorem C7_literal_conversion_per_column_class_witness :
    get_filter (.binaryOp (.identifier Column.OrigSrc.name) .eq
        (.value (.singleQuotedString "127.0.0.1"))) =
      Except.ok ⟨{ DirFilter.default with ipv4_src := some ⟨127, 0, 0, 1⟩ },
        DirFilter.default⟩ ∧
    isAddrColumn Column.OrigSrc = true ∧
    ((⟨{ DirFilter.default with ipv4_src := some ⟨127, 0, 0, 1⟩ },
        DirFilter.default⟩ : CtFilter).slot Column.OrigSrc).isSome = true :=
  ⟨by decide, by decide,
    ((C7_literal_conversion_per_column_class Column.OrigSrc
        (.singleQuotedString "127.0.0.1")
        ⟨{ DirFilter.default with ipv4_src := some ⟨127, 0, 0, 1⟩ },
          DirFilter.default⟩ (by decide)).1 (by decide)).mpr
      ⟨"127.0.0.1", ⟨127, 0, 0, 1⟩, rfl, by decide⟩⟩

/-- C8: every empty or whitespace-only input compiles to the all-match
filter on both directions, whatever the (never consulted) SQL parser
does. -/
theorem C8_whitespace_only_compiles_to_all_match
    (parseSql : String → Except ParserError Ast.Expr)
    (sql : String) (h : ∀ ch ∈ sql.toList, isRustWhitespace ch = true) :
    parse_filter parseSql sql = Except.ok CtFilter.default := by
  have htrim : rustTrim sql = [] := by
    unfold rustTrim
    rw [List.dropWhile_eq_nil_iff.mpr h]
    rfl
  simp [parse_filter, htrim]

/-- Witness for C8 at the blank-and-tab input. -/
theorem C8_whitespace_only_compiles_to_all_match_witness :
    (∀ ch ∈ (" \t ").toList, isRustWhitespace ch = true) ∧
    parse_filter (fun _ => Except.error ⟨"unreachable"⟩) " \t "
      = Except.ok CtFilter.default :=
  ⟨by decide,
    C8_whitespace_only_compiles_to_all_match
      (fun _ => Except.error ⟨"unreachable"⟩) " \t " (by decide)⟩

/-- Claim C9 counterexample: a scan or schema fetch for the table name
`Foo` does not return a not-found/unsupported error to the caller —
both `assert_eq!` checks fail, which panics (aborts) instead. -/
theorem C9_wrong_name_panics_counterexample :
    scan_data_inner "Foo" (Except.ok []) = RustOutcome.assertViolation ∧
    (scan_data_inner "Foo" (Except.ok [])).isErr = false ∧
    fetch_schema "Foo" = RustOutcome.assertViolation ∧
    (fetch_schema "Foo").isErr = false := by decide

/-- C9 (amended): for every table name other than `Connections`, scan
and schema fetch violate the `assert_eq!` on the table name — they
panic rather than return a not-found error or succeed. -/
theorem C9_wrong_table_name_hits_assertion (table_name : String)
    (dump : Except ConntrackError (List FlowRecord))
    (h : table_name ≠ "Connections") :
    scan_data_inner table_name dump = RustOutcome.assertViolation ∧
    fetch_schema table_name = RustOutcome.assertViolation := by
  unfold scan_data_inner fetch_schema
  rw [if_neg h, if_neg h]
  exact ⟨rfl, rfl⟩

/-- Witness for the amended C9 at the table name `Bar`. -/
theorem C9_wrong_table_name_hits_assertion_witness :
    ("Bar" ≠ "Connections") ∧
    scan_data_inner "Bar" (Except.error ⟨"net"⟩)
      = RustOutcome.assertViolation ∧
    fetch_schema "Bar" = RustOutcome.assertViolation :=
  ⟨by decide,
    (C9_wrong_table_name_hits_assertion "Bar" (Except.error ⟨"net"⟩)
      (by decide)).1,
    (C9_wrong_table_name_hits_assertion "Bar" (Except.error ⟨"net"⟩)
      (by decide)).2⟩

/-- C10: a successful scan yields exactly one row per dumped flow, in
dump order, each paired with the null key `Key::None` and wrapped in
`Ok`. -/
theorem C10_scan_one_row_per_flow_null_key (flows : List FlowRecord) :
    scan_data_inner "Connections" (Except.ok flows) =
      RustOutcome.ok (flows.map (fun flow =>
        Except.ok (Key.none, DataRow.vec (projectRow flow)))) := rfl
